import Mathlib

/-!
Shallow embedding of the SQL generator in `src/python/generate_sql.py`
(class `SQLGenerator`): the value formatter `format_value`, the rule
compiler `process_rule`, the group compiler `process_group` and the
top-level dispatcher `generate_sql`, together with theorems settling the
specification claims about them.

JSON values are modelled by `JValue`.  Python specifics that the code
observes are modelled explicitly:
  * `isinstance(value, (int, float))` is true for booleans, because
    `bool` is a subclass of `int` in Python (`isIntFloatInst`);
  * `str(True) = "True"`, `str(None) = "None"` (`pyStr`);
  * `str.replace` replaces occurrences left to right (`pyReplaceChar`,
    specialised to the one-character pattern the generator uses);
  * truthiness (`pyTruthy`) as used by `if negate:`;
  * a missing dictionary key raises `KeyError` and indexing an empty
    list raises `IndexError`; fallible paths return `Except`.

Python floats are abstracted by the two observations the program makes
of them: their `str` representation and their truthiness.
-/

/-- A JSON value as loaded by Python's `json` module (objects do not
occur where the generator reads values from, so they are not
modelled). -/
inductive JValue where
  | null : JValue
  | str : String → JValue
  | int : Int → JValue
  | float : Bool → String → JValue
  | bool : Bool → JValue
  | list : List JValue → JValue

/-- The single-quote character, `Char.ofNat 39`. -/
def sqc : Char := Char.ofNat 39

/-- The single-quote string. -/
def squote : String := String.mk [sqc]

/-- Python `s.replace(pat, rep)` restricted to a one-character pattern
`pat = c` (the generator only ever replaces the single-quote
character): every occurrence of `c` is replaced by `rep`. -/
def pyReplaceChar (c : Char) (rep : List Char) : List Char → List Char
  | [] => []
  | a :: as =>
    if a = c then rep ++ pyReplaceChar c rep as
    else a :: pyReplaceChar c rep as

/-- `str(value).replace("'", "''")` (generate_sql.py lines 80 and 92):
double every single quote. -/
def pyEscapeQuotes (s : String) : String :=
  String.mk (pyReplaceChar sqc [sqc, sqc] s.data)

mutual
/-- Python `str(value)` for the values of `JValue`. -/
def pyStr : JValue → String
  | .null => "None"
  | .str s => s
  | .int n => toString n
  | .float _ r => r
  | .bool b => if b then "True" else "False"
  | .list vs => "[" ++ String.intercalate ", " (pyReprList vs) ++ "]"

/-- Python `repr` of each list element, as used by `str` on a list.
(Python's quote-choice and character escaping inside `repr` of exotic
strings is not modelled; the generator never stringifies a list.) -/
def pyReprList : List JValue → List String
  | [] => []
  | .str s :: vs => (squote ++ s ++ squote) :: pyReprList vs
  | v :: vs => pyStr v :: pyReprList vs
end

/-- Python truthiness, as used by `if negate:`. -/
def pyTruthy : JValue → Bool
  | .null => false
  | .str s => s != ""
  | .int n => n != 0
  | .float z _ => !z
  | .bool b => b
  | .list vs => !vs.isEmpty

/-- Python `x == "lit"` for a JSON value `x` and a string literal:
true exactly when `x` is that string. -/
def pyEqStr : JValue → String → Bool
  | .str t, s => t == s
  | _, _ => false

/-- `isinstance(value, str)`. -/
def isStrV : JValue → Bool
  | .str _ => true
  | _ => false

/-- `isinstance(value, (int, float))`.  True for booleans as well,
because `bool` is a subclass of `int` in Python. -/
def isIntFloatInst : JValue → Bool
  | .int _ => true
  | .float _ _ => true
  | .bool _ => true
  | _ => false

/-- `isinstance(value, bool)`. -/
def isBoolV : JValue → Bool
  | .bool _ => true
  | _ => false

/-- Python `s[1:-1]`: drop the first and the last character. -/
def dropEnds (s : String) : String :=
  String.mk (s.data.drop 1).dropLast

/-- The idiom `x[0] if isinstance(x, list) else x`: indexing an empty
list raises `IndexError`. -/
def firstIfList : JValue → Except String JValue
  | .list [] => .error "IndexError: list index out of range"
  | .list (x :: _) => .ok x
  | x => .ok x

mutual
/-- `SQLGenerator.format_value` (generate_sql.py lines 52-92).  The
Python default `value_type=None` is the argument `JValue.null` here;
a `valueType` key that is absent and one that holds JSON `null` both
reach this function as Python `None`. -/
def format_value (value : JValue) (value_type : JValue) : Except String String :=
  match value with
  | .null => .ok "NULL"
  | .list [v] => do
      let t ← firstIfList value_type
      format_value v t
  | .list vs => do
      let fs ← format_values vs
      .ok ("(" ++ String.intercalate ", " fs ++ ")")
  | v =>
      let effective_type : JValue :=
        match value_type with
        | .list [t] => t
        | t => t
      if pyEqStr effective_type "string" || isStrV v then
        .ok (squote ++ pyEscapeQuotes (pyStr v) ++ squote)
      else if pyEqStr effective_type "number" || isIntFloatInst v then
        .ok (pyStr v)
      else if pyEqStr effective_type "boolean" || isBoolV v then
        .ok (if pyTruthy v then "TRUE" else "FALSE")
      else if pyEqStr effective_type "date" || pyEqStr effective_type "datetime" then
        .ok ("DATE " ++ squote ++ pyStr v ++ squote)
      else if pyEqStr effective_type "time" then
        .ok (squote ++ pyStr v ++ squote)
      else
        .ok (squote ++ pyEscapeQuotes (pyStr v) ++ squote)

/-- The elementwise formatting in `", ".join(self.format_value(v) for v
in value)` (line 70): each element is formatted with the default
`value_type=None`. -/
def format_values : List JValue → Except String (List String)
  | [] => .ok []
  | v :: vs => do
      let f ← format_value v .null
      let fs ← format_values vs
      .ok (f :: fs)
end

example : format_value (.int 30) .null = .ok "30" := rfl
example : format_value (.bool true) .null = .ok "True" := rfl
example : format_value (.str "Jo") .null = .ok (squote ++ "Jo" ++ squote) := rfl
example : format_value (.list [.str "A", .str "B"]) .null
    = .ok ("(" ++ squote ++ "A" ++ squote ++ ", " ++ squote ++ "B" ++ squote ++ ")") := rfl

/-- The `OPERATOR_MAPPING` class attribute (generate_sql.py lines
17-39), as an association list of its 20 keys: the 18 rule operators
plus the two conjunction keys commented `# For groups`. -/
def OPERATOR_MAPPING : List (String × String) :=
  [("equal", "="),
   ("not_equal", "!="),
   ("less", "<"),
   ("less_or_equal", "<="),
   ("greater", ">"),
   ("greater_or_equal", ">="),
   ("like", "LIKE"),
   ("not_like", "NOT LIKE"),
   ("starts_with", "LIKE"),
   ("ends_with", "LIKE"),
   ("between", "BETWEEN"),
   ("not_between", "NOT BETWEEN"),
   ("is_null", "IS NULL"),
   ("is_not_null", "IS NOT NULL"),
   ("is_empty", "= " ++ squote ++ squote),
   ("is_not_empty", "!= " ++ squote ++ squote),
   ("in", "IN"),
   ("not_in", "NOT IN"),
   ("AND", "AND"),
   ("OR", "OR")]

/-- `self.OPERATOR_MAPPING[operator]`: dictionary indexing, raising
`KeyError` on a missing key. -/
def opLookup (op : String) : Except String String :=
  match OPERATOR_MAPPING.lookup op with
  | some s => .ok s
  | none => .error ("KeyError: " ++ op)

/-- The `properties` dictionary of a node, holding the keys either node
kind reads.  `field` and `operator` are accessed with `props[...]`
(absence raises `KeyError`); `value` likewise, so presence is tracked
with `Option`; `valueType` is accessed with `props.get("valueType")`,
where an absent key and a JSON `null` both yield Python `None`, so it
is a plain `JValue` with `JValue.null` standing for both. -/
structure Props where
  conjunction : Option JValue
  negate : Option JValue
  field : Option String
  operator : Option String
  value : Option JValue
  valueType : JValue

/-- A query-tree node: a dictionary with the keys the generator reads
(`type`, `properties`, `children1`), each possibly absent. -/
inductive Node where
  | mk : Option String → Option Props → Option (List Node) → Node

/-- The `type` key of a node. -/
def Node.typ : Node → Option String
  | .mk t _ _ => t

/-- The `properties` key of a node. -/
def Node.properties : Node → Option Props
  | .mk _ p _ => p

/-- The `children1` key of a node. -/
def Node.children1 : Node → Option (List Node)
  | .mk _ _ c => c

/-- `rule["properties"]`: raises `KeyError` when absent. -/
def getProps (r : Node) : Except String Props :=
  match r.properties with
  | some p => .ok p
  | none => .error "KeyError: properties"

/-- `d[k]` for a string-valued key: raises `KeyError` when absent. -/
def reqStr (o : Option String) (k : String) : Except String String :=
  match o with
  | some s => .ok s
  | none => .error ("KeyError: " ++ k)

/-- `d[k]` for a JSON-valued key: raises `KeyError` when absent. -/
def reqVal (o : Option JValue) (k : String) : Except String JValue :=
  match o with
  | some v => .ok v
  | none => .error ("KeyError: " ++ k)

/-- The tail of `SQLGenerator.process_rule` after the `BETWEEN` special
case (generate_sql.py lines 139-162): the `IN`, `starts_with`,
`ends_with` and default binary-operator branches. -/
def process_rule_rest (field operator : String) (value value_type : JValue) :
    Except String String :=
  if operator == "in" || operator == "not_in" then do
    let formatted_values ← format_value value value_type
    let op ← opLookup operator
    .ok (field ++ " " ++ op ++ " " ++ formatted_values)
  else if operator == "starts_with" then do
    let v ← firstIfList value
    let t ← firstIfList value_type
    let formatted_value ← format_value v t
    .ok (field ++ " LIKE " ++ squote ++ (dropEnds formatted_value ++ "%") ++ squote)
  else if operator == "ends_with" then do
    let v ← firstIfList value
    let t ← firstIfList value_type
    let formatted_value ← format_value v t
    .ok (field ++ " LIKE " ++ squote ++ ("%" ++ dropEnds formatted_value) ++ squote)
  else do
    let v ← firstIfList value
    let t ← firstIfList value_type
    let formatted_value ← format_value v t
    let op ← opLookup operator
    .ok (field ++ " " ++ op ++ " " ++ formatted_value)

/-- `SQLGenerator.process_rule` (generate_sql.py lines 108-162).  The
`BETWEEN` guard requires the value to be a list of length at least two;
any other shape falls through to the remaining branches, exactly as the
Python `if` chain does. -/
def process_rule (rule : Node) : Except String String := do
  let props ← getProps rule
  let operator ← reqStr props.operator "operator"
  let field ← reqStr props.field "field"
  if operator == "is_null" || operator == "is_not_null" then do
    let op ← opLookup operator
    .ok (field ++ " " ++ op)
  else if operator == "is_empty" || operator == "is_not_empty" then do
    let op ← opLookup operator
    .ok (field ++ " " ++ op)
  else do
    let value ← reqVal props.value "value"
    let value_type := props.valueType
    if operator == "between" || operator == "not_between" then
      match value with
      | .list (a :: b :: _) => do
          let t ← firstIfList value_type
          let low_val ← format_value a t
          let high_val ← format_value b t
          let op ← opLookup operator
          .ok (field ++ " " ++ op ++ " " ++ low_val ++ " AND " ++ high_val)
      | _ => process_rule_rest field operator value value_type
    else
      process_rule_rest field operator value value_type

/-- `props.get("conjunction", "AND")` after
`props = group.get("properties", {})` (lines 174-175). -/
def groupConj (p : Option Props) : JValue :=
  match p with
  | none => .str "AND"
  | some pr => pr.conjunction.getD (.str "AND")

/-- `negate = props.get("not", False)` (line 176). -/
def groupNegate (p : Option Props) : JValue :=
  match p with
  | none => .bool false
  | some pr => pr.negate.getD (.bool false)

mutual
/-- `SQLGenerator.process_group` (generate_sql.py lines 164-201).  A
missing `children1` key defaults to the empty list; an empty children
list returns the literal `TRUE` before conjunction, parenthesization
and negation are applied. -/
def process_group : Node → Except String String
  | Node.mk _ _ none => .ok "TRUE"
  | Node.mk _ _ (some []) => .ok "TRUE"
  | Node.mk _ p (some (c :: cs)) => do
      let conditions ← process_children (c :: cs)
      let joined := String.intercalate (" " ++ pyStr (groupConj p) ++ " ") conditions
      let wrapped := if conditions.length > 1 then "(" ++ joined ++ ")" else joined
      .ok (if pyTruthy (groupNegate p) then "NOT " ++ wrapped else wrapped)

/-- The child loop of `process_group` (lines 183-188): a child without
a `type` key raises `KeyError`; a child of type `rule` or `group` is
compiled and appended; any other type is silently skipped. -/
def process_children : List Node → Except String (List String)
  | [] => .ok []
  | c :: cs => do
      let t ← reqStr c.typ "type"
      if t == "rule" then do
        let s ← process_rule c
        let rest ← process_children cs
        .ok (s :: rest)
      else if t == "group" then do
        let s ← process_group c
        let rest ← process_children cs
        .ok (s :: rest)
      else
        process_children cs
end

/-- `SQLGenerator.generate_sql` (generate_sql.py lines 203-222): the
top-level dispatch on the node type.  (The parameter-list reset on
lines 214-215 touches state that no code path reads, since
`use_params` is never consulted; it has no observable effect on the
returned string.) -/
def generate_sql (query_tree : Node) : Except String String := do
  let t ← reqStr query_tree.typ "type"
  if t == "group" then process_group query_tree
  else if t == "rule" then process_rule query_tree
  else .error ("Unknown node type: " ++ t)

/-- Convenience constructor for a rule node with the given field,
operator, value and declared type. -/
def mkRuleNode (f op : String) (val : JValue) (vt : JValue) : Node :=
  Node.mk (some "rule") (some (Props.mk none none (some f) (some op) (some val) vt)) none

/-- Replace the `not` key of a properties dictionary. -/
def setNegate (p : Props) (n : Option JValue) : Props :=
  Props.mk p.conjunction n p.field p.operator p.value p.valueType

/-- Properties holding exactly the textual defaults `process_group`
falls back to: conjunction `AND`, `not` false. -/
def defaultGroupProps : Props :=
  Props.mk (some (.str "AND")) (some (.bool false)) none none none JValue.null

example : process_rule (mkRuleNode "age" "greater" (.int 30) .null) = .ok "age > 30" := rfl
example : process_rule (mkRuleNode "name" "starts_with" (.str "Jo") .null)
    = .ok ("name LIKE " ++ squote ++ "Jo%" ++ squote) := rfl
example : process_rule (mkRuleNode "x" "between" (.list [.int 1, .int 10]) .null)
    = .ok "x BETWEEN 1 AND 10" := rfl
example : process_rule (Node.mk (some "rule")
    (some (Props.mk none none (some "s") (some "is_null") none .null)) none)
    = .ok "s IS NULL" := rfl
example : process_group (Node.mk (some "group")
    (some (Props.mk (some (.str "OR")) none none none none .null))
    (some [mkRuleNode "a" "equal" (.int 1) .null, mkRuleNode "b" "equal" (.int 2) .null]))
    = .ok "(a = 1 OR b = 2)" := rfl
example : process_rule (mkRuleNode "name" "in" (.list [.str "A", .str "B"]) .null)
    = .ok ("name IN (" ++ squote ++ "A" ++ squote ++ ", " ++ squote ++ "B" ++ squote ++ ")") := rfl

/-- Whether an `Except` value carries a result rather than an error. -/
def isOkE {α : Type} : Except String α → Bool
  | .ok _ => true
  | .error _ => false

/-- Collapse each doubled occurrence of `c` to a single one, left to
right. -/
def collapseDoubled (c : Char) : List Char → List Char
  | a :: b :: rest =>
    if a = c ∧ b = c then c :: collapseDoubled c rest
    else a :: collapseDoubled c (b :: rest)
  | l => l

/-- Modelled from the spec: re-parsing a produced SQL string literal,
by "stripping the outer quotes and collapsing each doubled quote"
(spec section 8, escaping idempotence). -/
def unescapeStringLiteral (s : String) : String :=
  String.mk (collapseDoubled sqc (dropEnds s).data)

theorem string_data_append (a b : String) : (a ++ b).data = a.data ++ b.data := by
  cases a
  cases b
  rfl

theorem string_mk_data (s : String) : String.mk s.data = s := by
  cases s
  rfl

theorem pyReplaceChar_quote_count (l : List Char) :
    (pyReplaceChar sqc [sqc, sqc] l).count sqc = 2 * l.count sqc := by
  induction l with
  | nil => rfl
  | cons a as ih =>
    by_cases h : a = sqc
    · subst h
      simp [pyReplaceChar, List.count_cons, ih]
      ring
    · simp [pyReplaceChar, h, List.count_cons, ih]

theorem collapseDoubled_cons_ne (c a : Char) (xs : List Char) (h : a ≠ c) :
    collapseDoubled c (a :: xs) = a :: collapseDoubled c xs := by
  cases xs with
  | nil => rfl
  | cons b rest => simp [collapseDoubled, h]

theorem collapseDoubled_pyReplaceChar (l : List Char) :
    collapseDoubled sqc (pyReplaceChar sqc [sqc, sqc] l) = l := by
  induction l with
  | nil => rfl
  | cons a as ih =>
    by_cases h : a = sqc
    · subst h
      simp [pyReplaceChar, collapseDoubled, ih]
    · rw [pyReplaceChar]
      simp only [h, if_false]
      rw [collapseDoubled_cons_ne sqc a _ h, ih]

/-- Claim C1 (code bug evaluation): a native boolean with no declared
type is formatted as Python's `str(True)`/`str(False)` — the strings
`True` and `False` — not as the SQL literals `TRUE`/`FALSE`, because
`isinstance(value, (int, float))` already catches booleans (Python's
`bool` is a subclass of `int`), so the number branch fires first and
the boolean branch is unreachable. -/
theorem format_value_native_bool_misformatted :
    format_value (.bool true) .null = .ok "True"
    ∧ format_value (.bool false) .null = .ok "False"
    ∧ isIntFloatInst (.bool true) = true := ⟨rfl, rfl, rfl⟩

/-- Claim C2 (code bug evaluation): `between` with an absent value or
an empty sequence does raise, but a scalar value or a one-element
sequence silently falls through to the default binary-operator branch
and yields the degenerate SQL `x BETWEEN 1` / `x BETWEEN 5` instead of
an error. -/
theorem process_rule_between_degrades :
    process_rule (mkRuleNode "x" "between" (.list [.int 1]) .null) = .ok "x BETWEEN 1"
    ∧ process_rule (mkRuleNode "x" "between" (.int 5) .null) = .ok "x BETWEEN 5"
    ∧ process_rule (Node.mk (some "rule")
        (some (Props.mk none none (some "x") (some "between") none .null)) none)
      = .error "KeyError: value"
    ∧ process_rule (mkRuleNode "x" "between" (.list []) .null)
      = .error "IndexError: list index out of range" := ⟨rfl, rfl, rfl, rfl⟩

/-- Claim C3 (counterexample): the operator strings `AND` and `OR` are
not among the 18 rule operators, yet compiling a rule that uses them
succeeds, because `OPERATOR_MAPPING` also contains the two conjunction
keys and the default binary branch looks the operator up there. -/
theorem process_rule_conjunction_operator_accepted :
    process_rule (mkRuleNode "x" "AND" (.int 1) .null) = .ok "x AND 1"
    ∧ process_rule (mkRuleNode "x" "OR" (.int 1) .null) = .ok "x OR 1" := ⟨rfl, rfl⟩

/-- Claim C6: a group whose `children1` sequence is empty — or absent,
which defaults to empty — compiles to exactly the string `TRUE`,
whatever its other properties. -/
theorem process_group_empty_children_true (t : Option String) (p : Option Props) :
    process_group (Node.mk t p (some [])) = .ok "TRUE"
    ∧ process_group (Node.mk t p none) = .ok "TRUE" := ⟨rfl, rfl⟩

/-- Claim C7: for a single-child group, compiling with `not` set to
`true` yields exactly `NOT ` prepended to the compilation of the same
group with `not` set to `false` (and the same error when the child
fails to compile). -/
theorem process_group_negation_concat (t : Option String) (p : Props) (c : Node) :
    process_group (Node.mk t (some (setNegate p (some (JValue.bool true)))) (some [c]))
      = Except.map (fun s => "NOT " ++ s)
          (process_group (Node.mk t (some (setNegate p (some (JValue.bool false)))) (some [c]))) := by
  cases hc : process_children [c] with
  | error e =>
      simp [process_group, hc, Except.map, Bind.bind, Except.bind, setNegate, groupConj,
        groupNegate]
  | ok conds =>
      simp [process_group, hc, Except.map, Bind.bind, Except.bind, setNegate, groupConj,
        groupNegate, pyTruthy]

/-- Claim C4 (amended): a group with a non-empty `children1` sequence
compiles each child of type `rule` or `group` in original order
(`process_children`) and joins the results with the conjunction,
parenthesizing and negating as configured; it does not take the
empty-children branch (though the joined result can still coincide
with the literal `TRUE`, see the counterexample). -/
theorem process_group_nonempty_children_join
    (t : Option String) (p : Option Props) (c : Node) (cs : List Node) :
    process_group (Node.mk t p (some (c :: cs)))
      = Except.map (fun conditions =>
          let joined := String.intercalate (" " ++ pyStr (groupConj p) ++ " ") conditions
          let wrapped := if conditions.length > 1 then "(" ++ joined ++ ")" else joined
          if pyTruthy (groupNegate p) then "NOT " ++ wrapped else wrapped)
          (process_children (c :: cs)) := by
  cases hc : process_children (c :: cs) with
  | error e => simp [process_group, hc, Except.map, Bind.bind, Except.bind]
  | ok conds => simp [process_group, hc, Except.map, Bind.bind, Except.bind]

/-- Claim C4 (counterexample): a group with one child — an empty group
— has a non-empty children sequence, yet compiles to exactly the
literal `TRUE`, since the sole child does. -/
theorem process_group_nonempty_children_true_output :
    process_group (Node.mk (some "group") none
        (some [Node.mk (some "group") none (some [])])) = .ok "TRUE" := rfl

/-- Claim C10 (amended): a group node without a `properties` key
compiles exactly like the same node whose properties spell out the
defaults, conjunction `AND` and `not` false; in particular the missing
key itself never causes an error (a failing child still can, see the
counterexample). -/
theorem process_group_missing_properties_defaults
    (t : Option String) (c : Option (List Node)) :
    process_group (Node.mk t none c)
      = process_group (Node.mk t (some defaultGroupProps) c) := by
  cases c with
  | none => rfl
  | some cs =>
    cases cs with
    | nil => rfl
    | cons c cs =>
      cases hc : process_children (c :: cs) with
      | error e =>
          simp [process_group, hc, Bind.bind, Except.bind, groupConj, groupNegate,
            defaultGroupProps]
      | ok conds =>
          simp [process_group, hc, Bind.bind, Except.bind, groupConj, groupNegate,
            defaultGroupProps]

/-- Claim C10 (counterexample): a group without a `properties` key does
not always compile successfully — a child rule that itself lacks
`properties` raises, and the error propagates. -/
theorem process_group_missing_properties_can_error :
    process_group (Node.mk (some "group") none
        (some [Node.mk (some "rule") none none]))
      = .error "KeyError: properties" := rfl

theorem unmapped_ne (op : String) (hmap : OPERATOR_MAPPING.lookup op = none)
    (k : String) (hk : (OPERATOR_MAPPING.lookup k).isSome = true) :
    (op == k) = false := by
  refine beq_eq_false_iff_ne.mpr ?_
  intro he
  subst he
  rw [hmap] at hk
  simp at hk

theorem process_rule_rest_unmapped (f op : String) (v vt : JValue)
    (hmap : OPERATOR_MAPPING.lookup op = none) :
    isOkE (process_rule_rest f op v vt) = false := by
  have hin := unmapped_ne op hmap "in" rfl
  have hnotin := unmapped_ne op hmap "not_in" rfl
  have hsw := unmapped_ne op hmap "starts_with" rfl
  have hew := unmapped_ne op hmap "ends_with" rfl
  simp only [process_rule_rest, hin, hnotin, hsw, hew, Bool.or_self, Bool.false_eq_true,
    if_false]
  cases h1 : firstIfList v with
  | error e => simp [h1, Bind.bind, Except.bind, isOkE]
  | ok v1 =>
    cases h2 : firstIfList vt with
    | error e => simp [h1, h2, Bind.bind, Except.bind, isOkE]
    | ok t1 =>
      cases h3 : format_value v1 t1 with
      | error e => simp [h1, h2, h3, Bind.bind, Except.bind, isOkE]
      | ok fv => simp [h1, h2, h3, Bind.bind, Except.bind, isOkE, opLookup, hmap]

/-- Claim C3 (amended): a rule whose operator is outside the 20 keys of
`OPERATOR_MAPPING` — the 18 operators of the fixed set plus the two
conjunction keys `AND` and `OR` — always fails with an error, whatever
the rest of the rule looks like.  (For the conjunction keys themselves
the claim fails: see the counterexample.) -/
theorem process_rule_unmapped_operator_errors
    (t : Option String) (p : Props) (c : Option (List Node)) (op : String)
    (hop : p.operator = some op)
    (hmap : OPERATOR_MAPPING.lookup op = none) :
    isOkE (process_rule (Node.mk t (some p) c)) = false := by
  have hn1 := unmapped_ne op hmap "is_null" rfl
  have hn2 := unmapped_ne op hmap "is_not_null" rfl
  have hn3 := unmapped_ne op hmap "is_empty" rfl
  have hn4 := unmapped_ne op hmap "is_not_empty" rfl
  have hn5 := unmapped_ne op hmap "between" rfl
  have hn6 := unmapped_ne op hmap "not_between" rfl
  cases hf : p.field with
  | none =>
    simp [process_rule, getProps, Node.properties, hop, hf, reqStr, Bind.bind, Except.bind,
      isOkE]
  | some f =>
    cases hv : p.value with
    | none =>
      simp [process_rule, getProps, Node.properties, hop, hf, hv, reqStr, reqVal,
        Bind.bind, Except.bind, isOkE, hn1, hn2, hn3, hn4, hn5, hn6]
    | some v =>
      simp only [process_rule, getProps, Node.properties, hop, hf, hv, reqStr, reqVal,
        Bind.bind, Except.bind, hn1, hn2, hn3, hn4, hn5, hn6, Bool.or_self,
        Bool.false_eq_true, if_false]
      exact process_rule_rest_unmapped f op v p.valueType hmap

/-- Claim C3 (amended, witness): the unmapped operator `frobnicate` on
a concrete rule is rejected. -/
theorem process_rule_unmapped_operator_errors_witness :
    (Props.mk none none (some "x") (some "frobnicate") (some (JValue.int 1)) JValue.null).operator
        = some "frobnicate"
    ∧ OPERATOR_MAPPING.lookup "frobnicate" = none
    ∧ isOkE (process_rule (Node.mk (some "rule")
        (some (Props.mk none none (some "x") (some "frobnicate") (some (JValue.int 1)) JValue.null))
        none)) = false :=
  ⟨rfl, rfl,
    process_rule_unmapped_operator_errors (some "rule")
      (Props.mk none none (some "x") (some "frobnicate") (some (JValue.int 1)) JValue.null)
      none "frobnicate" rfl rfl⟩

theorem intercalate_singleton (sep s : String) : String.intercalate sep [s] = s := rfl

/-- Claim C5 (amended): parenthesization is decided by the number of
compiled conditions, not by the number of children.  A group whose
children compile to exactly one condition gets no wrapping parentheses
— its output is that condition, with at most a `NOT ` in front — and a
group whose children compile to two or more conditions gets exactly
one added pair around the conjunction-joined conditions.  (Counting
children instead fails when a child of unrecognized type is skipped:
see the counterexample.) -/
theorem process_group_parenthesization
    (t : Option String) (p : Option Props) (c : Node) (cs : List Node)
    (conds : List String)
    (h : process_children (c :: cs) = .ok conds) :
    (∀ s, conds = [s] →
      process_group (Node.mk t p (some (c :: cs)))
        = .ok (if pyTruthy (groupNegate p) then "NOT " ++ s else s))
    ∧ (1 < conds.length →
      process_group (Node.mk t p (some (c :: cs)))
        = .ok (if pyTruthy (groupNegate p)
            then "NOT " ++ ("(" ++ String.intercalate (" " ++ pyStr (groupConj p) ++ " ") conds ++ ")")
            else "(" ++ String.intercalate (" " ++ pyStr (groupConj p) ++ " ") conds ++ ")")) := by
  constructor
  · rintro s rfl
    simp [process_group, h, Bind.bind, Except.bind, intercalate_singleton]
  · intro hl
    simp [process_group, h, Bind.bind, Except.bind, hl]

/-- Claim C5 (amended, witness): a two-rule group joins both compiled
conditions and wraps them in one pair of parentheses. -/
theorem process_group_parenthesization_witness :
    process_children [mkRuleNode "a" "equal" (.int 1) .null,
        mkRuleNode "b" "equal" (.int 2) .null] = .ok ["a = 1", "b = 2"]
    ∧ ((∀ s, (["a = 1", "b = 2"] : List String) = [s] →
          process_group (Node.mk (some "group") none
              (some [mkRuleNode "a" "equal" (.int 1) .null,
                mkRuleNode "b" "equal" (.int 2) .null]))
            = .ok (if pyTruthy (groupNegate none) then "NOT " ++ s else s))
      ∧ (1 < (["a = 1", "b = 2"] : List String).length →
          process_group (Node.mk (some "group") none
              (some [mkRuleNode "a" "equal" (.int 1) .null,
                mkRuleNode "b" "equal" (.int 2) .null]))
            = .ok (if pyTruthy (groupNegate none)
                then "NOT " ++ ("(" ++ String.intercalate
                    (" " ++ pyStr (groupConj none) ++ " ") ["a = 1", "b = 2"] ++ ")")
                else "(" ++ String.intercalate
                    (" " ++ pyStr (groupConj none) ++ " ") ["a = 1", "b = 2"] ++ ")"))) :=
  ⟨rfl, process_group_parenthesization (some "group") none
    (mkRuleNode "a" "equal" (.int 1) .null) [mkRuleNode "b" "equal" (.int 2) .null]
    ["a = 1", "b = 2"] rfl⟩

/-- Claim C5 (counterexample): a group with two children, one of which
has an unrecognized type and is skipped, compiles to the single
remaining condition with no parentheses at all. -/
theorem process_group_two_children_skip_no_parens :
    process_group (Node.mk (some "group") none
        (some [mkRuleNode "age" "greater" (.int 30) .null,
          Node.mk (some "chaos") none none]))
      = .ok "age > 30"
    ∧ ¬ ∃ m : String, process_group (Node.mk (some "group") none
        (some [mkRuleNode "age" "greater" (.int 30) .null,
          Node.mk (some "chaos") none none]))
        = .ok ("(" ++ m ++ ")") := by
  refine ⟨rfl, ?_⟩
  rintro ⟨m, hm⟩
  have h0 : process_group (Node.mk (some "group") none
      (some [mkRuleNode "age" "greater" (.int 30) .null,
        Node.mk (some "chaos") none none]))
      = Except.ok "age > 30" := rfl
  rw [h0] at hm
  have h1 : ("age > 30" : String) = "(" ++ m ++ ")" := by
    simpa using hm
  have h2 : (some 'a' : Option Char) = some ('(' : Char) :=
    congrArg (fun s : String => s.data.head?) h1
  exact absurd h2 (by decide)

/-- Claim C8: formatting a native string with no declared type yields
the quoted literal whose interior doubles every single quote — so a
value with `n` quotes produces `2n` quote characters between the outer
quotes — and stripping the outer quotes and collapsing each doubled
quote recovers the original string exactly. -/
theorem format_value_string_escape_roundtrip (s : String) :
    format_value (.str s) .null = .ok (squote ++ pyEscapeQuotes s ++ squote)
    ∧ (pyEscapeQuotes s).data.count sqc = 2 * s.data.count sqc
    ∧ unescapeStringLiteral (squote ++ pyEscapeQuotes s ++ squote) = s := by
  refine ⟨rfl, pyReplaceChar_quote_count s.data, ?_⟩
  have e1 : (squote ++ pyEscapeQuotes s ++ squote).data
      = sqc :: ((pyEscapeQuotes s).data ++ [sqc]) := by
    rw [string_data_append, string_data_append]
    rfl
  have key : collapseDoubled sqc
      (((squote ++ pyEscapeQuotes s ++ squote).data.drop 1).dropLast) = s.data := by
    rw [e1]
    simp only [List.drop_succ_cons, List.drop_zero]
    rw [List.dropLast_concat]
    exact collapseDoubled_pyReplaceChar s.data
  show String.mk (collapseDoubled sqc
      (((squote ++ pyEscapeQuotes s ++ squote).data.drop 1).dropLast)) = s
  rw [key]

/-- Claim C9: for `in`/`not_in`, a one-element value sequence renders
as `field IN v` where `v` is the formatted sole element (the length-1
unwrap of the value formatter; no parentheses are added), while a
sequence of two or more elements renders as a parenthesized
comma-separated tuple of the elements, each formatted with no declared
type. -/
theorem process_rule_in_formats
    (f op : String) (v a b : JValue) (cs : List JValue) (vt : JValue)
    (h : op = "in" ∨ op = "not_in") :
    (process_rule (mkRuleNode f op (.list [v]) vt)
      = Except.map (fun fv => f ++ " " ++ (if op = "in" then "IN" else "NOT IN") ++ " " ++ fv)
          (format_value (.list [v]) vt))
    ∧ (format_value (.list [v]) vt
      = (firstIfList vt >>= fun tt => format_value v tt))
    ∧ (process_rule (mkRuleNode f op (.list (a :: b :: cs)) vt)
      = Except.map (fun fs => f ++ " " ++ (if op = "in" then "IN" else "NOT IN") ++ " "
            ++ ("(" ++ String.intercalate ", " fs ++ ")"))
          (format_values (a :: b :: cs))) := by
  rcases h with rfl | rfl
  · refine ⟨?_, rfl, ?_⟩
    · have e : process_rule (mkRuleNode f "in" (.list [v]) vt)
          = (format_value (.list [v]) vt >>= fun fv => .ok (f ++ " " ++ "IN" ++ " " ++ fv)) := rfl
      rw [e]
      cases hx : format_value (.list [v]) vt <;>
        simp [hx, Except.map, Bind.bind, Except.bind]
    · have e1 : process_rule (mkRuleNode f "in" (.list (a :: b :: cs)) vt)
          = (format_value (.list (a :: b :: cs)) vt
              >>= fun fv => .ok (f ++ " " ++ "IN" ++ " " ++ fv)) := rfl
      have e2 : format_value (.list (a :: b :: cs)) vt
          = (format_values (a :: b :: cs)
              >>= fun fs => .ok ("(" ++ String.intercalate ", " fs ++ ")")) := rfl
      rw [e1, e2]
      cases hx : format_values (a :: b :: cs) <;>
        simp [hx, Except.map, Bind.bind, Except.bind]
  · refine ⟨?_, rfl, ?_⟩
    · have e : process_rule (mkRuleNode f "not_in" (.list [v]) vt)
          = (format_value (.list [v]) vt
              >>= fun fv => .ok (f ++ " " ++ "NOT IN" ++ " " ++ fv)) := rfl
      rw [e]
      cases hx : format_value (.list [v]) vt <;>
        simp [hx, Except.map, Bind.bind, Except.bind]
    · have e1 : process_rule (mkRuleNode f "not_in" (.list (a :: b :: cs)) vt)
          = (format_value (.list (a :: b :: cs)) vt
              >>= fun fv => .ok (f ++ " " ++ "NOT IN" ++ " " ++ fv)) := rfl
      have e2 : format_value (.list (a :: b :: cs)) vt
          = (format_values (a :: b :: cs)
              >>= fun fs => .ok ("(" ++ String.intercalate ", " fs ++ ")")) := rfl
      rw [e1, e2]
      cases hx : format_values (a :: b :: cs) <;>
        simp [hx, Except.map, Bind.bind, Except.bind]

/-- Claim C9 (witness): a concrete `in` rule with a one-element and a
two-element value sequence. -/
theorem process_rule_in_formats_witness :
    (("in" : String) = "in" ∨ ("in" : String) = "not_in")
    ∧ ((process_rule (mkRuleNode "name" "in" (.list [.str "A"]) .null)
        = Except.map (fun fv => "name" ++ " "
              ++ (if ("in" : String) = "in" then "IN" else "NOT IN") ++ " " ++ fv)
            (format_value (.list [.str "A"]) .null))
      ∧ (format_value (.list [.str "A"]) .null
        = (firstIfList .null >>= fun tt => format_value (.str "A") tt))
      ∧ (process_rule (mkRuleNode "name" "in" (.list [.str "A", .str "B", .str "C"]) .null)
        = Except.map (fun fs => "name" ++ " "
              ++ (if ("in" : String) = "in" then "IN" else "NOT IN") ++ " "
              ++ ("(" ++ String.intercalate ", " fs ++ ")"))
            (format_values [.str "A", .str "B", .str "C"]))) :=
  ⟨Or.inl rfl,
    process_rule_in_formats "name" "in" (.str "A") (.str "A") (.str "B") [.str "C"] .null
      (Or.inl rfl)⟩
